import Mathlib

/-!
Shallow embedding of `script_parser.py` (Friends screenplay parser).

Text is modelled as `List Char` (one Python `str`), lines as elements of
`List Line`.  Python `set`s are modelled as duplicate-free lists built by
`addSet` (insertion order); claims about set-valued fields are stated via
membership, since Python set iteration order is unspecified.  Python `float`
averages are modelled as exact rationals; every claim touches them only at
values where IEEE arithmetic is exact (0).  All embedded functions are total,
mirroring the source's "never raises" contract.
-/

namespace ScriptParser

abbrev Line := List Char

/-- ASCII whitespace, matching Python `str.strip` / regex `\s` on the ASCII
inputs this parser targets. -/
def isWs (c : Char) : Bool :=
  c = ' ' || c = '\t' || c = '\n' || c = '\r' || c = Char.ofNat 11 || c = Char.ofNat 12

/-- Word character for the regex `\b` boundary: `[A-Za-z0-9_]`. -/
def isWordChar (c : Char) : Bool :=
  ('A' ≤ c && c ≤ 'Z') || ('a' ≤ c && c ≤ 'z') || ('0' ≤ c && c ≤ '9') || c = '_'

def isDigitC (c : Char) : Bool := '0' ≤ c && c ≤ '9'

def isUpperAZ (c : Char) : Bool := 'A' ≤ c && c ≤ 'Z'

def isLowerAZ (c : Char) : Bool := 'a' ≤ c && c ≤ 'z'

def lowerC (c : Char) : Char := if isUpperAZ c then Char.ofNat (c.toNat + 32) else c

def toLowerL (l : Line) : Line := l.map lowerC

/-- Python `str.strip()`. -/
def pyStrip (l : Line) : Line :=
  ((l.dropWhile isWs).reverse.dropWhile isWs).reverse

/-- Python `str.rstrip()` (used for the trailing part of a removed regex match). -/
def pyRstrip (l : Line) : Line :=
  (l.reverse.dropWhile isWs).reverse

def startsWithL : Line → Line → Bool
  | [], _ => true
  | _ :: _, [] => false
  | p :: ps, c :: cs => p = c && startsWithL ps cs

/-- Case-insensitive `startswith`. -/
def startsWithCI (pat l : Line) : Bool := startsWithL (toLowerL pat) (toLowerL l)

/-- Python `pat in l` (substring test, case sensitive). -/
def containsSub (pat : Line) : Line → Bool
  | [] => startsWithL pat []
  | l@(_ :: rest) => startsWithL pat l || containsSub pat rest

/-- Python `l.endswith(pat)` (used case-insensitively via `toLowerL`). -/
def endsWithL (pat l : Line) : Bool := startsWithL pat.reverse l.reverse

/-- Python `str.split(sep)` for a single-character separator. -/
def splitOnC (sep : Char) : Line → List Line
  | [] => [[]]
  | c :: rest =>
    let r := splitOnC sep rest
    if c = sep then [] :: r
    else match r with
      | [] => [[c]]
      | h :: t => (c :: h) :: t

/-- Python `str.splitlines()` for texts whose only terminator is `'\n'`
(the only terminator the parser's inputs contain): split on `'\n'` and
drop a final empty piece, so `""` gives `[]` and `"a\n"` gives `["a"]`. -/
def pySplitlines (text : Line) : List Line :=
  let parts := splitOnC '\n' text
  match parts.reverse with
  | [] => []
  | last :: revInit => if last = [] then revInit.reverse else parts

/-- `int()` of a digit string. -/
def natOfDigits (l : Line) : Nat :=
  l.foldl (fun n c => n * 10 + (c.toNat - 48)) 0

/-- Python `set.add` modelled on a duplicate-free list (insertion order). -/
def addSet (x : Line) (s : List Line) : List Line :=
  if x ∈ s then s else s ++ [x]

/-! ## `clean_line_and_extract_page` (source lines 250-271) -/

/-- Shape test for a page token: `\d{1,2}/\d{1,2}`. -/
def isPageShape (p : Line) : Bool :=
  match splitOnC '/' p with
  | [a, b] =>
    decide (1 ≤ a.length) && decide (a.length ≤ 2) && a.all isDigitC &&
    decide (1 ≤ b.length) && decide (b.length ≤ 2) && b.all isDigitC
  | _ => false

/-- `re.search(r'(.*?)\b(\d{1,2}/\d{1,2})\b\s*$', original)` on an already
stripped string: because the input has no trailing whitespace, a match is
exactly a suffix token `\d{1,2}/\d{1,2}` of the input whose preceding
character (if any) is a non-word character.  The lazy `(.*?)` makes the
match start leftmost, i.e. the longest such suffix wins; suffix lengths
5, 4, 3 are the only possible shapes and at most one can satisfy the
`\b` boundary.  Returns `(group1, token)`. -/
def tryPageSuffix (k : Nat) (l : Line) : Option (Line × Line) :=
  if k ≤ l.length then
    if isPageShape (l.drop (l.length - k)) &&
       (match (l.take (l.length - k)).getLast? with
        | none => true
        | some c => !isWordChar c) then
      some (l.take (l.length - k), l.drop (l.length - k))
    else none
  else none

def extractTrailingPage (l : Line) : Option (Line × Line) :=
  match tryPageSuffix 5 l with
  | some r => some r
  | none =>
    match tryPageSuffix 4 l with
    | some r => some r
    | none => tryPageSuffix 3 l

/-- `re.sub(rf'\s*{re.escape(episode_title)}\s*$', '', raw_before, re.IGNORECASE)`
on an already stripped `raw_before`: if the string ends with the title
(case-insensitively), the final occurrence and the whitespace run before it
are removed. -/
def removeTrailingTitle (raw : Line) (title : Option Line) : Line :=
  match title with
  | none => raw
  | some t =>
    if t = [] then raw
    else if endsWithL (toLowerL t) (toLowerL raw) then
      pyRstrip (raw.take (raw.length - t.length))
    else raw

/-- Length of a URL match `https?://\S+` anchored at the start of `l`,
if any (the `\S+` is greedy and must be non-empty). -/
def urlMatchLen (l : Line) : Option Nat :=
  if startsWithL "https://".toList l then
    let run := (l.drop 8).takeWhile (fun c => !isWs c)
    if run = [] then none else some (8 + run.length)
  else if startsWithL "http://".toList l then
    let run := (l.drop 7).takeWhile (fun c => !isWs c)
    if run = [] then none else some (7 + run.length)
  else none

/-- `re.sub(r'https?://\S+', '', raw_before)`: delete every URL occurrence,
scanning left to right and continuing after each match.  The fuel (the
input's length) never runs out because every step consumes at least one
character. -/
def removeUrlsGo : Nat → Line → Line
  | 0, l => l
  | _ + 1, [] => []
  | fuel + 1, c :: rest =>
    match urlMatchLen (c :: rest) with
    | some n => removeUrlsGo fuel (rest.drop (n - 1))
    | none => c :: removeUrlsGo fuel rest

def removeUrls (l : Line) : Line := removeUrlsGo l.length l

/-- `clean_line_and_extract_page(text, episode_title)` (source lines
250-271): strip, extract the trailing page token if any (`raw_before` is
then group(1) stripped), remove a trailing episode-title occurrence, remove
URLs, strip again. -/
def clean_line_and_extract_page (text : Line) (episode_title : Option Line) :
    Line × Option Line :=
  match extractTrailingPage (pyStrip text) with
  | some (pre, tok) =>
    (pyStrip (removeUrls (removeTrailingTitle (pyStrip pre) episode_title)), some tok)
  | none =>
    (pyStrip (removeUrls (removeTrailingTitle (pyStrip text) episode_title)), none)

/-! ## Scene/Dialogue parser (`parse_friends_script`, source lines 311-416) -/

structure StageDirection where
  direction : Line
  line_number : Nat
deriving DecidableEq, Repr

structure DialogueEntry where
  speaker : Line
  line : Line
  line_number : Nat
  /-- Present in the dict only when a trailing page marker was found. -/
  page_number : Option Line
  /-- The `"cleaned"` key: absent (`false`) until the title-scrubber sets it. -/
  cleaned : Bool
deriving DecidableEq, Repr

structure Scene where
  scene : Option Line
  scene_number : Nat
  characters : List Line
  dialogue : List DialogueEntry
  page_numbers : List Line
  episode_title : Option Line
  stage_directions : List StageDirection
  /-- Absent on the implicit initial scene, `line_num + 1` for headings. -/
  line_number_start : Option Nat
deriving DecidableEq, Repr

structure ParserState where
  script : List Scene
  current : Scene
  speaker : Option Line
  buffer : Line
  counter : Nat
deriving DecidableEq, Repr

/-- The initial `current_scene` dict (source lines 313-321). -/
def initScene (episode_title : Option Line) : Scene :=
  { scene := none, scene_number := 0, characters := [], dialogue := [],
    page_numbers := [], episode_title := episode_title, stage_directions := [],
    line_number_start := none }

def initState (episode_title : Option Line) : ParserState :=
  { script := [], current := initScene episode_title, speaker := none,
    buffer := [], counter := 0 }

/-- Noise test (source lines 335-339): title fragment AND `"http"` AND a
`\d+/\d+` token (which exists iff some digit is followed by `/digit`). -/
def hasDigitSlashDigit : Line → Bool
  | a :: b :: c :: rest =>
    (isDigitC a && b = '/' && isDigitC c) || hasDigitSlashDigit (b :: c :: rest)
  | _ => false

def isNoiseLine (l : Line) : Bool :=
  (containsSub "The One Where".toList l || containsSub "The One with".toList l) &&
  containsSub "http".toList l && hasDigitSlashDigit l

/-- A run of exactly `n` digits, returning the rest. -/
def digitsSeg (n : Nat) (r : Line) : Option Line :=
  if (r.take n).length = n && (r.take n).all isDigitC then some (r.drop n) else none

def slashSeg : Line → Option Line
  | '/' :: rest => some rest
  | _ => none

def dateCombo (n1 n2 n3 : Nat) (l : Line) : Bool :=
  match digitsSeg n1 l with
  | none => false
  | some r1 =>
    match slashSeg r1 with
    | none => false
    | some r2 =>
      match digitsSeg n2 r2 with
      | none => false
      | some r3 =>
        match slashSeg r3 with
        | none => false
        | some r4 => (digitsSeg n3 r4).isSome

/-- `re.match(r'^\d{1,2}/\d{1,2}/\d{2,4}', line)` (source line 343): the
backtracking regex matches iff some admissible split of digit-run lengths
works. -/
def isDateLine (l : Line) : Bool :=
  [1, 2].any fun n1 => [1, 2].any fun n2 => [2, 3, 4].any fun n3 =>
    dateCombo n1 n2 n3 l

/-- `re.search(r"\[Scene:\s*(.*?)\]", line)` on a line starting with
`"[Scene:"`: group(1) runs from after the maximal whitespace run following
the colon up to the first `']'`, if there is one. -/
def sceneDescription (l : Line) : Option Line :=
  let rest := (l.drop 7).dropWhile isWs
  if rest.any (· = ']') then some (rest.takeWhile (· ≠ ']')) else none

/-- `re.match(r"^([A-Z][a-z]+):\s*(.*)", line)`: one capitalized word
(maximal lowercase run), a colon, then the rest after the greedy `\s*`. -/
def matchSpeaker (l : Line) : Option (Line × Line) :=
  match l with
  | c :: rest =>
    if isUpperAZ c then
      let lows := rest.takeWhile isLowerAZ
      if lows = [] then none
      else match rest.drop lows.length with
        | ':' :: after => some (c :: lows, after.dropWhile isWs)
        | _ => none
    else none
  | [] => none

/-- The dialogue entry built by a flush: the cleaned buffer, the recorded
`line_number` `ln`, and the page marker if one was found (the `page_number`
key is present only in that case). -/
def flushEntry (title : Option Line) (sp buffer : Line) (ln : Nat) :
    DialogueEntry :=
  { speaker := sp,
    line := (clean_line_and_extract_page (pyStrip buffer) title).1,
    line_number := ln,
    page_number := (clean_line_and_extract_page (pyStrip buffer) title).2,
    cleaned := false }

/-- `current_scene["page_numbers"].add(page_number)`, guarded on a match. -/
def addPage (cur : Scene) : Option Line → Scene
  | some pg => { cur with page_numbers := addSet pg cur.page_numbers }
  | none => cur

/-- The flush of the pending buffer into a dialogue entry (the duplicated
block at source lines 381-391 and 401-411): clean the buffer, record the
page marker if any, append the entry. `ln` is the recorded `line_number`. -/
def flushInto (title : Option Line) (cur : Scene) (sp : Line) (buffer : Line)
    (ln : Nat) : Scene :=
  { addPage cur (clean_line_and_extract_page (pyStrip buffer) title).2 with
    dialogue :=
      (addPage cur (clean_line_and_extract_page (pyStrip buffer) title).2).dialogue
        ++ [flushEntry title sp buffer ln] }

/-- One iteration of the parser loop body (source lines 328-398) on the
already stripped line; `lineNum` is the 0-based `line_num` of `enumerate`. -/
def processStripped (title : Option Line) (st : ParserState) (lineNum : Nat)
    (line : Line) : ParserState :=
  if line = [] then st
  else if isNoiseLine line then st
  else if isDateLine line then st
  else if startsWithL "[Scene:".toList line then
    { script :=
        if st.current.dialogue ≠ [] ∨ st.current.stage_directions ≠ [] then
          st.script ++ [st.current]
        else st.script,
      current := { scene := sceneDescription line, scene_number := st.counter + 1,
                   characters := [], dialogue := [], page_numbers := [],
                   episode_title := title, stage_directions := [],
                   line_number_start := some (lineNum + 1) },
      speaker := none, buffer := [], counter := st.counter + 1 }
  else if startsWithL "[".toList line || startsWithL "(".toList line then
    { st with current :=
        { st.current with stage_directions :=
            st.current.stage_directions ++ [⟨line, lineNum + 1⟩] } }
  else
    match matchSpeaker line with
    | some (name, text) =>
      match st.speaker, st.buffer with
      | some sp, b :: bs =>
        { st with
          current :=
            { flushInto title st.current sp (b :: bs) (lineNum + 1) with
              characters :=
                addSet name
                  (flushInto title st.current sp (b :: bs) (lineNum + 1)).characters },
          speaker := some name, buffer := text }
      | _, _ =>
        { st with
          current := { st.current with characters := addSet name st.current.characters },
          speaker := some name, buffer := text }
    | none =>
      match st.speaker with
      | some _ => { st with buffer := st.buffer ++ ' ' :: line }
      | none => st

/-- One iteration of the parser loop (`line = line.strip()` then the body). -/
def processLine (title : Option Line) (st : ParserState) (p : Nat × Line) :
    ParserState :=
  processStripped title st p.1 (pyStrip p.2)

/-- Run the loop over all enumerated lines. -/
def runLines (title : Option Line) (lines : List Line) : ParserState :=
  lines.enum.foldl (processLine title) (initState title)

/-- The final-flush epilogue (source lines 400-414): only when a speaker is
active and the buffer non-empty is the last entry flushed — and only then is
the current scene appended. -/
def finalizeState (title : Option Line) (lineCount : Nat) (st : ParserState) :
    List Scene :=
  match st.speaker, st.buffer with
  | some sp, b :: bs => st.script ++ [flushInto title st.current sp (b :: bs) lineCount]
  | _, _ => st.script

/-- Total number of dialogue entries held by a parser state (emitted scenes
plus the open scene); used to express that a scene boundary flushes
nothing. -/
def entryCount (st : ParserState) : Nat :=
  (st.script.map (fun s => s.dialogue.length)).sum + st.current.dialogue.length

/-- `parse_friends_script(raw_text, metadata)` (source lines 311-416); the
`metadata` dict is consulted only for `episode_title`, passed here directly. -/
def parse_friends_script (raw_text : Line) (episode_title : Option Line) :
    List Scene :=
  finalizeState episode_title (pySplitlines raw_text).length
    (runLines episode_title (pySplitlines raw_text))

/-! ## `clean_episode_title_from_dialogue` (source lines 274-308)

The compiled pattern is `\s*` ++ re.escape(title) with every escaped space
turned into `\s+` ++ `\s*`, applied case-insensitively with empty
replacement, then whitespace is collapsed and the result stripped. -/

inductive PatElem where
  | lit (c : Char)
  | wsPlus
deriving DecidableEq, Repr

/-- Compile the title into pattern elements (spaces become `\s+`). -/
def compileTitle (t : Line) : List PatElem :=
  t.map fun c => if c = ' ' then PatElem.wsPlus else PatElem.lit c

/-- Match the element list against a prefix of `l` (case-insensitive
literals, greedy backtracking `\s+`: a whitespace quantifier can only
consume within the current whitespace run, so greedy backtracking is "try
the longest extension first"), returning the remaining suffix of the first
match in backtracking order. -/
def matchElems : List PatElem → Line → Option Line
  | [], l => some l
  | PatElem.lit c :: es, l =>
    match l with
    | [] => none
    | x :: xs => if lowerC x = lowerC c then matchElems es xs else none
  | PatElem.wsPlus :: es, l =>
    match l with
    | [] => none
    | x :: xs =>
      if isWs x then
        let w := xs.takeWhile isWs
        (List.range (w.length + 1)).reverse.findSome?
          (fun k => matchElems es (xs.drop k))
      else none

/-- Greedy `\s*` then the element list (longest whitespace first). -/
def matchWsStarThen (es : List PatElem) (l : Line) : Option Line :=
  let w := l.takeWhile isWs
  (List.range (w.length + 1)).reverse.findSome? (fun k => matchElems es (l.drop k))

/-- Match the full pattern `\s* elems \s*` at the start of `l`; the trailing
`\s*` (nothing follows it) greedily eats the whitespace run.  Returns the
remainder after the match. -/
def matchTitlePat (es : List PatElem) (l : Line) : Option Line :=
  match matchWsStarThen es l with
  | some r => some (r.dropWhile isWs)
  | none => none

/-- `re.sub(title_pattern, '', line, re.IGNORECASE)` scanning left to right;
`fuel` bounds the recursion (every real match consumes at least one
character since the title is non-empty). -/
def scrubGo (es : List PatElem) : Nat → Line → Line
  | 0, l => l
  | _ + 1, [] => []
  | fuel + 1, c :: rest =>
    match matchTitlePat es (c :: rest) with
    | some remaining => scrubGo es fuel remaining
    | none => c :: scrubGo es fuel rest

/-- `re.sub(r'\s+', ' ', l)`: collapse each whitespace run to one space.
Fuel-bounded; the fuel (the input's length) never runs out. -/
def collapseWsGo : Nat → Line → Line
  | 0, l => l
  | _ + 1, [] => []
  | fuel + 1, c :: rest =>
    if isWs c then ' ' :: collapseWsGo fuel (rest.dropWhile isWs)
    else c :: collapseWsGo fuel rest

def collapseWs (l : Line) : Line := collapseWsGo l.length l

/-- The per-entry body of the scrubber loop: returns the updated entry and 1
if the text actually changed, else the entry untouched and 0. -/
def scrubEntry (es : List PatElem) (e : DialogueEntry) : DialogueEntry × Nat :=
  if pyStrip (collapseWs (scrubGo es e.line.length e.line)) ≠ e.line then
    ({ e with
        line := pyStrip (collapseWs (scrubGo es e.line.length e.line))
        cleaned := true }, 1)
  else (e, 0)

def scrubScene (es : List PatElem) (s : Scene) : Scene × Nat :=
  ({ s with dialogue := (s.dialogue.map (scrubEntry es)).map Prod.fst },
   ((s.dialogue.map (scrubEntry es)).map Prod.snd).sum)

/-- `clean_episode_title_from_dialogue(script_data, episode_title)`
(source lines 274-308).  `None` and the empty title are falsy in Python. -/
def clean_episode_title_from_dialogue (script_data : List Scene)
    (episode_title : Option Line) : List Scene × Nat :=
  match episode_title with
  | none => (script_data, 0)
  | some t =>
    if t = [] then (script_data, 0)
    else
      ((script_data.map (scrubScene (compileTitle t))).map Prod.fst,
       ((script_data.map (scrubScene (compileTitle t))).map Prod.snd).sum)

/-! ## `calculate_script_statistics` (source lines 173-247) -/

structure CharAcc where
  total_lines : Nat
  scenes_appeared : Nat
deriving DecidableEq, Repr

structure CharStat where
  total_lines : Nat
  scenes_appeared : Nat
  average_lines_per_scene : ℚ
deriving DecidableEq, Repr

structure Statistics where
  total_scenes : Nat
  total_dialogue_lines : Nat
  character_stats : List (Line × CharStat)
  scene_lengths : List Nat
  average_scene_length : ℚ
  longest_scene : Option (Nat × Nat)
  shortest_scene : Option (Nat × Nat)
  page_range : Option (Nat × Nat)
  unique_characters : List Line
  speaking_characters : List Line
deriving DecidableEq, Repr

structure StatsAcc where
  total_dialogue_lines : Nat
  character_stats : List (Line × CharAcc)
  scene_lengths : List Nat
  all_pages : List Line
  unique_characters : List Line
  speaking_characters : List Line
deriving DecidableEq, Repr

def lookupChar (c : Line) (m : List (Line × CharAcc)) : Option CharAcc :=
  (m.find? (fun p => p.1 = c)).map Prod.snd

/-- `stats["character_stats"][char]["scenes_appeared"] += 1`, inserting the
all-zero record first when the character is new. -/
def bumpAppeared (c : Line) (m : List (Line × CharAcc)) : List (Line × CharAcc) :=
  match lookupChar c m with
  | some _ => m.map fun p =>
      if p.1 = c then (p.1, { p.2 with scenes_appeared := p.2.scenes_appeared + 1 }) else p
  | none => m ++ [(c, { total_lines := 0, scenes_appeared := 1 })]

/-- `if speaker in stats["character_stats"]: ... ["total_lines"] += 1`. -/
def bumpLines (c : Line) (m : List (Line × CharAcc)) : List (Line × CharAcc) :=
  match lookupChar c m with
  | some _ => m.map fun p =>
      if p.1 = c then (p.1, { p.2 with total_lines := p.2.total_lines + 1 }) else p
  | none => m

/-- `scene_lengths.append` and the `total_dialogue_lines` sum
(source lines 191-193). -/
def statsLengths (acc : StatsAcc) (s : Scene) : StatsAcc :=
  { acc with
    scene_lengths := acc.scene_lengths ++ [s.dialogue.length],
    total_dialogue_lines := acc.total_dialogue_lines + s.dialogue.length }

/-- `if scene.get("page_numbers"): all_pages.update(...)` (lines 196-197). -/
def statsPages (acc : StatsAcc) (s : Scene) : StatsAcc :=
  if s.page_numbers ≠ [] then
    { acc with all_pages := s.page_numbers.foldl (fun a p => addSet p a) acc.all_pages }
  else acc

/-- `for char in scene["characters"]` (lines 200-208). -/
def statsChars (acc : StatsAcc) (s : Scene) : StatsAcc :=
  s.characters.foldl
    (fun a c => { a with
      unique_characters := addSet c a.unique_characters,
      character_stats := bumpAppeared c a.character_stats }) acc

/-- `for dialogue in scene["dialogue"]` (lines 211-215). -/
def statsDialogue (acc : StatsAcc) (s : Scene) : StatsAcc :=
  s.dialogue.foldl
    (fun a d => { a with
      speaking_characters := addSet d.speaker a.speaking_characters,
      character_stats := bumpLines d.speaker a.character_stats }) acc

/-- The body of `for scene in script_data` (source lines 190-215). -/
def statsScene (acc : StatsAcc) (s : Scene) : StatsAcc :=
  statsDialogue (statsChars (statsPages (statsLengths acc s) s) s) s

def initStatsAcc : StatsAcc :=
  { total_dialogue_lines := 0, character_stats := [], scene_lengths := [],
    all_pages := [], unique_characters := [], speaking_characters := [] }

def statsFold (script_data : List Scene) : StatsAcc :=
  script_data.foldl statsScene initStatsAcc

/-- `int(p.split('/')[0])`: the page token's numerator. -/
def pageNumerator (p : Line) : Nat := natOfDigits (p.takeWhile (· ≠ '/'))

/-- `sum / len` when `scene_lengths` is non-empty, else the initial 0
(source lines 218-219). -/
def averageSceneLength (lens : List Nat) : ℚ :=
  match lens with
  | [] => 0
  | _ :: _ => (lens.sum : ℚ) / (lens.length : ℚ)

/-- `max` with `list.index` (first index) on non-empty lengths (lines
221-227). -/
def longestScene (lens : List Nat) : Option (Nat × Nat) :=
  match lens with
  | [] => none
  | _ :: _ => some (lens.foldl Nat.max 0, lens.indexOf (lens.foldl Nat.max 0))

/-- `min` with `list.index` (first index) on non-empty lengths (lines
221-231). -/
def shortestScene (lens : List Nat) : Option (Nat × Nat) :=
  match lens with
  | [] => none
  | _ :: _ =>
    some (lens.foldl Nat.min (lens.headD 0),
          lens.indexOf (lens.foldl Nat.min (lens.headD 0)))

/-- `{"start": min, "end": max}` over the numerators of all collected page
tokens (source lines 239-241). -/
def pageRange (all_pages : List Line) : Option (Nat × Nat) :=
  match all_pages.map pageNumerator with
  | [] => none
  | n :: rest => some (rest.foldl Nat.min n, rest.foldl Nat.max n)

/-- The derived per-character record (source lines 234-236). -/
def finalCharStats (m : List (Line × CharAcc)) : List (Line × CharStat) :=
  m.map fun p =>
    (p.1, { total_lines := p.2.total_lines, scenes_appeared := p.2.scenes_appeared,
            average_lines_per_scene :=
              if p.2.scenes_appeared > 0 then
                (p.2.total_lines : ℚ) / (p.2.scenes_appeared : ℚ)
              else 0 })

/-- `calculate_script_statistics(script_data)` (source lines 173-247).
Python floats are modelled as exact rationals. -/
def calculate_script_statistics (script_data : List Scene) : Statistics :=
  { total_scenes := script_data.length,
    total_dialogue_lines := (statsFold script_data).total_dialogue_lines,
    character_stats := finalCharStats (statsFold script_data).character_stats,
    scene_lengths := (statsFold script_data).scene_lengths,
    average_scene_length := averageSceneLength (statsFold script_data).scene_lengths,
    longest_scene := longestScene (statsFold script_data).scene_lengths,
    shortest_scene := shortestScene (statsFold script_data).scene_lengths,
    page_range := pageRange (statsFold script_data).all_pages,
    unique_characters := (statsFold script_data).unique_characters,
    speaking_characters := (statsFold script_data).speaking_characters }

/-! ## `extract_episode_metadata` (source lines 17-161)

Only the fields the claims consult are embedded (`file_info`
timestamps/sizes are I/O, `air_date`/`directors`/`production_code` are
never read by any claim). -/

structure Metadata where
  episode_title : Option Line
  season : Option Nat
  episode_number : Option Nat
  series_episode_number : Option Nat
  writers : List Line
  story_by : List Line
  teleplay_by : List Line
  total_pages : Option Nat
deriving DecidableEq, Repr

/-- `os.path.basename`. -/
def basename (p : Line) : Line :=
  match (splitOnC '/' p).reverse with
  | [] => []
  | last :: _ => last

/-- The title-continuation step (source lines 50-64): combine with the next
line (and possibly one more) while parentheses stay unbalanced. -/
def combineTitle (lines : List Line) (i : Nat) (clean : Line) : Line :=
  let title := clean
  if (endsWithL "(".toList title ||
      decide (title.count '(' > title.count ')')) && decide (i + 1 < lines.length) then
    let next := pyStrip (lines.getD (i + 1) [])
    if next ≠ [] && !startsWithL "[".toList next && !startsWithL "Written".toList next then
      let title := title ++ ' ' :: next
      if decide (title.count '(' > title.count ')') && decide (i + 2 < lines.length) then
        let third := pyStrip (lines.getD (i + 2) [])
        if third ≠ [] && !startsWithL "[".toList third && !startsWithL "Written".toList third then
          title ++ ' ' :: third
        else title
      else title
    else title
  else title

/-- The title scan over `lines[:50]` (source lines 47-67): first line whose
stripped form starts case-insensitively with `"the one"`, then the
continuation step; the scan stops at the first candidate. -/
def findTitleFrom (lines : List Line) : List (Nat × Line) → Option Line
  | [] => none
  | (i, line) :: rest =>
    let clean := pyStrip line
    if startsWithCI "the one".toList clean then some (combineTitle lines i clean)
    else findTitleFrom lines rest

def extractEpisodeTitle (lines : List Line) : Option Line :=
  findTitleFrom lines (lines.take 50).enum

/-- `re.search(r'[Ss](\d+)', filename)`: first `S`/`s` followed by at least
one digit; the group is the maximal digit run. -/
def findSeasonNum : Line → Option Nat
  | [] => none
  | c :: rest =>
    if (c = 'S' || c = 's') && (match rest with | d :: _ => isDigitC d | [] => false) then
      some (natOfDigits (rest.takeWhile isDigitC))
    else findSeasonNum rest

/-- `re.search(r'[Ee]p?(\d+)', filename)`: first `E`/`e`, an optional `p`,
then a maximal digit run (backtracking over the optional `p`). -/
def findEpisodeNum : Line → Option Nat
  | [] => none
  | c :: rest =>
    if c = 'E' || c = 'e' then
      match rest with
      | 'p' :: d :: more =>
        if isDigitC d then some (natOfDigits ((d :: more).takeWhile isDigitC))
        else findEpisodeNum rest
      | d :: _ =>
        if isDigitC d then some (natOfDigits (rest.takeWhile isDigitC))
        else findEpisodeNum rest
      | [] => none
    else findEpisodeNum rest

/-- The fixed per-season episode-count table (source line 84). -/
def season_episodes : List Nat := [0, 24, 24, 25, 24, 24, 25, 24, 24, 24, 18]

/-- The series-episode-number computation (source lines 82-87).  Python
truthiness: `0` season or episode behaves like `None`; the bound check is
`season <= len(season_episodes) - 1`. -/
def computeSeriesEpisodeNumber (season episode : Option Nat) : Option Nat :=
  match season, episode with
  | some s, some e =>
    if s ≠ 0 && e ≠ 0 then
      if s ≤ season_episodes.length - 1 then
        some (((season_episodes.drop 1).take (s - 1)).sum + e)
      else none
    else none
  | _, _ => none

/-- Credit regex `{keyword}:?\s*(.+?)(?:\n|Transcribed|$)` (IGNORECASE,
`re.search`): after the leftmost keyword occurrence, greedy `:?`, greedy
`\s*`, then the lazy group stops at the first `"Transcribed"` (any case) or
at end of line.  Lines contain no `'\n'`. -/
def lazyGroupStop (r : Line) : Option Line :=
  match (List.range' 1 r.length).find?
      (fun n => r.drop n = [] || startsWithCI "Transcribed".toList (r.drop n)) with
  | some n => some (r.take n)
  | none => none

def matchAfterKeyword (r : Line) : Option Line :=
  let afterColon : Line → Option Line := fun r2 =>
    let w := r2.takeWhile isWs
    match (List.range (w.length + 1)).reverse.findSome?
        (fun k => lazyGroupStop (r2.drop k)) with
    | some g => some g
    | none => none
  match r with
  | ':' :: r2 =>
    match afterColon r2 with
    | some g => some g
    | none => afterColon (':' :: r2)
  | _ => afterColon r

def searchCredit (keyword : Line) : Line → Option Line
  | [] => none
  | l@(_ :: rest) =>
    if startsWithCI keyword l then
      match matchAfterKeyword (l.drop keyword.length) with
      | some g => some g
      | none => searchCredit keyword rest
    else searchCredit keyword rest

/-- `[w.strip() for w in writer_text.split('&') if w.strip()]` applied to
`match.group(1).strip()`. -/
def creditNames (g : Line) : List Line :=
  ((splitOnC '&' (pyStrip g)).map pyStrip).filter (· ≠ [])

def creditsFor (keyword : Line) (first_lines : List Line) : List Line :=
  first_lines.foldl
    (fun acc l => match searchCredit keyword l with
      | some g => acc ++ creditNames g
      | none => acc) []

/-- `[A-Z][a-z]+` with a maximal lowercase run; returns the rest. -/
def chompName : Line → Option Line
  | c :: rest =>
    if isUpperAZ c then
      let lows := rest.takeWhile isLowerAZ
      if lows = [] then none else some (rest.drop lows.length)
    else none
  | [] => none

/-- After one name, accept any sequence of `\s+Name` or `\s*&\s*Name`
separators until the input is exhausted (equivalent to the nested stars of
the fallback pattern); `fuel` bounds recursion, each step consumes ≥ 1. -/
def nameListRest : Nat → Line → Bool
  | 0, l => l = []
  | fuel + 1, l =>
    if l = [] then true
    else
      let ws := l.takeWhile isWs
      let r := l.drop ws.length
      match r with
      | '&' :: r2 =>
        match chompName (r2.dropWhile isWs) with
        | some r4 => nameListRest fuel r4
        | none => false
      | _ =>
        if ws = [] then false
        else match chompName r with
          | some r4 => nameListRest fuel r4
          | none => false

def isNameList (l : Line) : Bool :=
  match chompName l with
  | some r => nameListRest l.length r
  | none => false

/-- The Friends-specific fallback (source lines 116-126):
`re.match(r'^(NameList)\s+Transcribed by:', line)` — the greedy stars make
the group the longest name-list prefix followed by whitespace and the
literal `"Transcribed by:"`. -/
def transcribedFallback (line : Line) : Option Line :=
  match (List.range (line.length + 1)).reverse.find?
      (fun k =>
        isNameList (line.take k) &&
        (let r := line.drop k
         let w := r.takeWhile isWs
         w ≠ [] && startsWithL "Transcribed by:".toList (r.drop w.length))) with
  | some k => some (line.take k)
  | none => none

def fallbackWriters (first_lines : List Line) : List Line :=
  match (first_lines.take 3).findSome? (fun l => transcribedFallback (pyStrip l)) with
  | some g => creditNames g
  | none => []

/-- `\b(\d{1,2}/\d{1,2})\b` tried at one position (the caller guarantees the
left `\b`); greedy runs, backtracking over the {1,2} lengths. -/
def pageDenom (m : Nat) (a rest : Line) : Option Line :=
  let b := rest.take m
  if b.length = m && b.all isDigitC &&
     (match rest.drop m with | [] => true | c :: _ => !isWordChar c) then
    some (a ++ '/' :: b)
  else none

def pageWith (n : Nat) (l : Line) : Option Line :=
  let a := l.take n
  if a.length = n && a.all isDigitC && l.getD n ' ' = '/' then
    match pageDenom 2 a (l.drop (n + 1)) with
    | some tok => some tok
    | none => pageDenom 1 a (l.drop (n + 1))
  else none

def pagePrefix (l : Line) : Option Line :=
  match pageWith 2 l with
  | some tok => some tok
  | none => pageWith 1 l

/-- `re.search(r'\b(\d{1,2}/\d{1,2})\b', line)`: leftmost match. -/
def findPageGo (prev : Option Char) : Line → Option Line
  | [] => none
  | c :: rest =>
    if (match prev with | none => true | some p => !isWordChar p) then
      match pagePrefix (c :: rest) with
      | some tok => some tok
      | none => findPageGo (some c) rest
    else findPageGo (some c) rest

def findPageToken (l : Line) : Option Line := findPageGo none l

/-- `total_pages` (source lines 149-159): the distinct page tokens across all
lines (first match per line), then the maximum numerator. -/
def totalPages (lines : List Line) : Option Nat :=
  let page_numbers := lines.foldl
    (fun acc l => match findPageToken l with
      | some t => addSet t acc
      | none => acc) []
  match page_numbers.map pageNumerator with
  | [] => none
  | n :: rest => some (rest.foldl Nat.max n)

/-- `extract_episode_metadata(text, pdf_path)` (source lines 17-161),
restricted to the fields the claims consult. -/
def extract_episode_metadata (text : Line) (pdf_path : Line) : Metadata :=
  let lines := pySplitlines text
  let filename := basename pdf_path
  let season := findSeasonNum filename
  let episode := findEpisodeNum filename
  let first_lines := lines.take 10
  let writers :=
    creditsFor "Written by".toList first_lines ++ creditsFor "Writer".toList first_lines
  let writers := if writers = [] then fallbackWriters first_lines else writers
  { episode_title := extractEpisodeTitle lines,
    season := season,
    episode_number := episode,
    series_episode_number := computeSeriesEpisodeNumber season episode,
    writers := writers,
    teleplay_by := creditsFor "Teleplay by".toList first_lines,
    story_by := creditsFor "Story by".toList first_lines,
    total_pages := totalPages lines }

/-! ## The pipeline (`parse_friends_script_with_metadata`, source lines
419-461, minus the external PDF/file-system collaborators) -/

/-- The scrubbed scene list of the pipeline. -/
def pipeline_scenes (raw_text : Line) (pdf_path : Line) : List Scene :=
  (clean_episode_title_from_dialogue
    (parse_friends_script raw_text (extract_episode_metadata raw_text pdf_path).episode_title)
    (extract_episode_metadata raw_text pdf_path).episode_title).1

def parse_pipeline (raw_text : Line) (pdf_path : Line) :
    Metadata × List Scene × Nat × Statistics :=
  (extract_episode_metadata raw_text pdf_path,
   pipeline_scenes raw_text pdf_path,
   (clean_episode_title_from_dialogue
     (parse_friends_script raw_text (extract_episode_metadata raw_text pdf_path).episode_title)
     (extract_episode_metadata raw_text pdf_path).episode_title).2,
   calculate_script_statistics (pipeline_scenes raw_text pdf_path))

/-! ## Invariants used by the verification -/

/-- The scene-number sequence tracked by the monotonicity invariant: the
emitted scenes' numbers followed by the open scene's number. -/
def numsOf (st : ParserState) : List Nat :=
  st.script.map (fun s => s.scene_number) ++ [st.current.scene_number]

def NumInv (st : ParserState) : Prop :=
  List.Chain' (· < ·) (numsOf st) ∧ st.current.scene_number = st.counter

/-- Every dialogue entry's speaker is recorded in the scene's characters. -/
def sceneOK (s : Scene) : Prop :=
  ∀ e ∈ s.dialogue, e.speaker ∈ s.characters

def SpeakerInv (st : ParserState) : Prop :=
  (∀ s ∈ st.script, sceneOK s) ∧ sceneOK st.current ∧
  (∀ sp, st.speaker = some sp → sp ∈ st.current.characters)

/-- Speaking characters accumulated so far are already unique characters. -/
def accOK (a : StatsAcc) : Prop :=
  ∀ c ∈ a.speaking_characters, c ∈ a.unique_characters

/-! ## Concrete inputs used by the claims -/

def apos : Char := Char.ofNat 39

/-- The six-line scenario of the specification (section 8). -/
def scenarioText : Line :=
  "Written by: Marta Kauffman & David Crane\n[Scene: Central Perk, everyone is there]\nRoss: Hi guys! 1/22\nChandler: Could this BE any cooler?\n[Scene: Monica".toList
    ++ apos :: "s apartment]\nJoey: How you doin".toList ++ apos :: "? 2/22".toList

def scenarioPath : Line := "ep.txt".toList

def scenario_scenes : List Scene := (parse_pipeline scenarioText scenarioPath).2.1

def scenario_stats : Statistics := (parse_pipeline scenarioText scenarioPath).2.2.2

/-- Two consecutive headings (the first scene is discarded as empty) then a
speaker: the only emitted scene carries `scene_number = 2`. -/
def c2Text : Line := "[Scene: A]\n[Scene: B]\nRoss: Hi".toList

/-- A stage direction before the first heading: the implicit leading scene
holds it, so the first `[Scene:` boundary emits that scene mid-stream with
`scene_number = 0`. -/
def c2bText : Line := "(They enter)\n[Scene: A]\nRoss: Hi\nJoey: Yo".toList

/-- A speaker line with empty text: Ross enters the scene's `characters` but
never yields a dialogue entry. -/
def c3Text : Line := "[Scene: A]\nRoss:\nJoey: Hi".toList

/-- A trailing speaker line with empty text leaves `buffer` falsy at end of
input, so the final scene (which holds Ross's entry) is never appended. -/
def c4Text : Line := "[Scene: A]\nRoss: Hi\nJoey:".toList

def c5Text : Line := "Ross: Hi\nChandler: Yo".toList

/-- A scene value for exercising the title-scrubber directly. -/
def c7Scene : Scene :=
  { scene := none, scene_number := 1, characters := ["X".toList],
    dialogue := [{ speaker := "X".toList, line := "aabb".toList,
                   line_number := 1, page_number := none, cleaned := false }],
    page_numbers := [], episode_title := some "ab".toList,
    stage_directions := [], line_number_start := some 1 }

set_option maxRecDepth 100000

/-! ## Claim C1 -/

/-- C1 counterexample: on the six-line scenario the pipeline yields
`total_dialogue_lines = 2`, not 3, and per-scene dialogue counts `[1, 1]`,
not `[2, 1]`: Chandler's pending buffer is dropped at the second
`[Scene:` boundary, so scene 1 has a single entry. -/
theorem C1_scenario_counterexample :
    scenario_stats.total_dialogue_lines ≠ 3 ∧
    scenario_scenes.map (fun s => s.dialogue.length) ≠ [2, 1] ∧
    scenario_stats.total_dialogue_lines = 2 ∧
    scenario_scenes.map (fun s => s.dialogue.length) = [1, 1] := by decide

/-- C1 amended: on the six-line scenario the pipeline yields
`writers = ["Marta Kauffman", "David Crane"]`, exactly 2 emitted scenes
numbered 1 and 2, scene 1 with one dialogue entry (Ross, Chandler's pending
line having been dropped at the scene boundary, though Chandler still
appears in scene 1's characters) and `page_numbers = ["1/22"]`, scene 2 with
one entry (Joey) and `page_numbers = ["2/22"]`, `total_pages = 2`,
`total_dialogue_lines = 2` and `total_scenes = 2`. -/
theorem C1_scenario_amended :
    (parse_pipeline scenarioText scenarioPath).1.writers =
      ["Marta Kauffman".toList, "David Crane".toList] ∧
    scenario_scenes.length = 2 ∧
    scenario_scenes.map (fun s => s.scene_number) = [1, 2] ∧
    scenario_scenes.map (fun s => s.dialogue.map (fun e => e.speaker)) =
      [["Ross".toList], ["Joey".toList]] ∧
    scenario_scenes.map (fun s => s.page_numbers) =
      [["1/22".toList], ["2/22".toList]] ∧
    "Chandler".toList ∈ (scenario_scenes.headD (initScene none)).characters ∧
    (parse_pipeline scenarioText scenarioPath).1.total_pages = some 2 ∧
    scenario_stats.total_dialogue_lines = 2 ∧
    scenario_stats.total_scenes = 2 := by decide

/-! ## Claim C9 -/

/-- C9 counterexample: for filename `"S1E0.pdf"` both a season (1) and an
in-season episode number (0) are extracted and the season is within the
table's bounds, yet `series_episode_number` is left absent — the code's
truthiness test rejects the extracted 0. -/
theorem C9_series_counterexample :
    (extract_episode_metadata [] "S1E0.pdf".toList).season = some 1 ∧
    (extract_episode_metadata [] "S1E0.pdf".toList).episode_number = some 0 ∧
    (extract_episode_metadata [] "S1E0.pdf".toList).series_episode_number = none := by
  decide

/-! ## Claim C10 -/

/-- C10: on empty input the parser returns no scenes, and the statistics
aggregator returns the all-default record with `total_scenes = 0` and
`average_scene_length = 0`; the whole pipeline is total (no error). -/
theorem C10_empty_input :
    pySplitlines [] = [] ∧
    parse_friends_script [] none = [] ∧
    calculate_script_statistics [] =
      { total_scenes := 0, total_dialogue_lines := 0, character_stats := [],
        scene_lengths := [], average_scene_length := 0, longest_scene := none,
        shortest_scene := none, page_range := none, unique_characters := [],
        speaking_characters := [] } ∧
    (parse_pipeline [] "x.txt".toList).2.1 = [] ∧
    (parse_pipeline [] "x.txt".toList).2.2.2.total_scenes = 0 ∧
    (parse_pipeline [] "x.txt".toList).2.2.2.average_scene_length = 0 := by decide

/-! ## Counterexamples for claims C2-C5 and C7 -/

/-- C2 counterexample: after two headings whose first scene was discarded as
empty, the single emitted scene has `scene_number = 2`, so emitted numbers
do not start at 1 and skip over discarded headings' numbers. -/
theorem C2_numbering_counterexample :
    (parse_friends_script c2Text none).map (fun s => s.scene_number) = [2] := by
  decide

/-- C3 counterexample: Ross (a speaker line with empty text) is in
`unique_characters` but not in `speaking_characters`, so the two fields are
not always equal as sets. -/
theorem C3_characters_counterexample :
    "Ross".toList ∈ (parse_pipeline c3Text "x.txt".toList).2.2.2.unique_characters ∧
    "Ross".toList ∉ (parse_pipeline c3Text "x.txt".toList).2.2.2.speaking_characters := by
  decide

/-- C4 counterexample: at end of input the running scene holds Ross's
dialogue entry, yet no speaker/non-empty-buffer pair is pending, so the
scene is never appended — the parser returns no scenes at all, contradicting
the claimed unconditional close-and-append. -/
theorem C4_final_scene_counterexample :
    (runLines none (pySplitlines c4Text)).current.dialogue.length = 1 ∧
    parse_friends_script c4Text none = [] := by decide

/-- C5 counterexample: Ross's entry was started by the speaker line on line
1, but the recorded `line_number` is 2 — the 1-based number of the line that
triggered the flush (Chandler's speaker line, and `len(lines)` for the final
flush). -/
theorem C5_line_number_counterexample :
    matchSpeaker (pyStrip ((pySplitlines c5Text).getD 0 [])) =
      some ("Ross".toList, "Hi".toList) ∧
    (parse_friends_script c5Text none).map
        (fun s => s.dialogue.map (fun e => (e.speaker, e.line_number))) =
      [[("Ross".toList, 2), ("Chandler".toList, 2)]] := by decide

/-- C7 counterexample: with title `"ab"` and dialogue text `"aabb"`, the
first scrub removes the inner occurrence and splices the remaining
characters into a fresh `"ab"`, which the second scrub then removes: the
second run's removed-count is 1 and it changes the scenes. -/
theorem C7_idempotence_counterexample :
    (clean_episode_title_from_dialogue
        (clean_episode_title_from_dialogue [c7Scene] (some "ab".toList)).1
        (some "ab".toList)).2 = 1 ∧
    (clean_episode_title_from_dialogue
        (clean_episode_title_from_dialogue [c7Scene] (some "ab".toList)).1
        (some "ab".toList)).1 ≠
      (clean_episode_title_from_dialogue [c7Scene] (some "ab".toList)).1 := by
  decide

/-! ## Claim C8 -/

theorem tryPageSuffix_spec {k : Nat} {l pre tok : Line}
    (h : tryPageSuffix k l = some (pre, tok)) :
    l = pre ++ tok ∧ isPageShape tok = true := by
  unfold tryPageSuffix at h
  split at h
  · split at h
    · rename_i hcond
      simp only [Option.some.injEq, Prod.mk.injEq] at h
      obtain ⟨h1, h2⟩ := h
      subst h1; subst h2
      refine ⟨(List.take_append_drop _ l).symm, ?_⟩
      exact (Bool.and_eq_true ..).mp hcond |>.1
    · exact absurd h (by simp)
  · exact absurd h (by simp)

theorem extractTrailingPage_spec {l pre tok : Line}
    (h : extractTrailingPage l = some (pre, tok)) :
    l = pre ++ tok ∧ isPageShape tok = true := by
  unfold extractTrailingPage at h
  split at h
  · rename_i heq; cases h; exact tryPageSuffix_spec heq
  · split at h
    · rename_i heq; cases h; exact tryPageSuffix_spec heq
    · exact tryPageSuffix_spec h

theorem clean_line_page_spec {t : Line} {title : Option Line} {p : Line}
    (h : (clean_line_and_extract_page t title).2 = some p) :
    (∃ pre, pyStrip t = pre ++ p) ∧ isPageShape p = true := by
  unfold clean_line_and_extract_page at h
  cases hx : extractTrailingPage (pyStrip t) with
  | none => rw [hx] at h; simp at h
  | some pr =>
    obtain ⟨pre, tok⟩ := pr
    rw [hx] at h
    simp only [Option.some.injEq] at h
    subst h
    exact ⟨⟨pre, (extractTrailingPage_spec hx).1⟩, (extractTrailingPage_spec hx).2⟩

/-- C8: cleaning `"Hello there 12/22"` yields text `"Hello there"` and page
`"12/22"`; cleaning `"No page here"` leaves the text unchanged with no page;
and in general a page token is extracted only when it is a
`\d{1,2}/\d{1,2}`-shaped suffix of the trimmed input. -/
theorem C8_page_extraction :
    clean_line_and_extract_page "Hello there 12/22".toList none =
      ("Hello there".toList, some "12/22".toList) ∧
    clean_line_and_extract_page "No page here".toList none =
      ("No page here".toList, none) ∧
    ∀ (text : Line) (title : Option Line) (p : Line),
      (clean_line_and_extract_page text title).2 = some p →
      (∃ pre, pyStrip text = pre ++ p) ∧ isPageShape p = true := by
  refine ⟨by decide, by decide, ?_⟩
  intro text title p h
  exact clean_line_page_spec h

theorem C8_page_extraction_witness :
    (∃ pre, pyStrip "x 3/4".toList = pre ++ "3/4".toList) ∧
      isPageShape "3/4".toList = true :=
  C8_page_extraction.2.2 "x 3/4".toList none "3/4".toList (by decide)

/-! ## Claim C9, amended -/

/-- C9 amended: `series_episode_number` is computed iff a season and an
in-season episode number are extracted, both are non-zero (Python
truthiness), and the season is at most 10; when computed it equals the sum
of the table entries for all seasons strictly before the given season plus
the in-season number (so season 1 episode 5 gives 5 and season 3 episode 1
gives 49); larger seasons leave the field absent without error. -/
theorem C9_series_episode_number_amended :
    (∀ s e : Option Nat, (computeSeriesEpisodeNumber s e).isSome = true ↔
      ∃ sn en : Nat, s = some sn ∧ e = some en ∧ sn ≠ 0 ∧ en ≠ 0 ∧ sn ≤ 10) ∧
    (∀ sn en : Nat, sn ≠ 0 → en ≠ 0 → sn ≤ 10 →
      computeSeriesEpisodeNumber (some sn) (some en) =
        some (((season_episodes.drop 1).take (sn - 1)).sum + en)) ∧
    computeSeriesEpisodeNumber (some 1) (some 5) = some 5 ∧
    computeSeriesEpisodeNumber (some 3) (some 1) = some 49 ∧
    (∀ e : Option Nat, computeSeriesEpisodeNumber (some 11) e = none) := by
  have hlen : season_episodes.length - 1 = 10 := by decide
  refine ⟨?_, ?_, by decide, by decide, ?_⟩
  · intro s e
    constructor
    · intro h
      match s, e with
      | none, _ => simp [computeSeriesEpisodeNumber] at h
      | some sn, none => simp [computeSeriesEpisodeNumber] at h
      | some sn, some en =>
        refine ⟨sn, en, rfl, rfl, ?_⟩
        by_cases h1 : sn = 0
        · simp [computeSeriesEpisodeNumber, h1] at h
        · by_cases h2 : en = 0
          · simp [computeSeriesEpisodeNumber, h2] at h
          · by_cases h3 : sn ≤ season_episodes.length - 1
            · exact ⟨h1, h2, hlen ▸ h3⟩
            · simp [computeSeriesEpisodeNumber, h1, h2, h3] at h
    · rintro ⟨sn, en, rfl, rfl, h1, h2, h3⟩
      simp [computeSeriesEpisodeNumber, h1, h2, hlen ▸ h3]
  · intro sn en h1 h2 h3
    simp [computeSeriesEpisodeNumber, h1, h2, hlen ▸ h3]
  · intro e
    match e with
    | none => simp [computeSeriesEpisodeNumber]
    | some en => simp [computeSeriesEpisodeNumber, season_episodes]

theorem C9_series_episode_number_amended_witness :
    computeSeriesEpisodeNumber (some 10) (some 3) =
      some (((season_episodes.drop 1).take (10 - 1)).sum + 3) :=
  C9_series_episode_number_amended.2.1 10 3 (by decide) (by decide) (by decide)

/-! ## Claim C7, amended -/

theorem scrubEntry_zero {es : List PatElem} {e : DialogueEntry}
    (h : (scrubEntry es e).2 = 0) : (scrubEntry es e).1 = e := by
  unfold scrubEntry at h ⊢
  split at h
  · exact absurd h (by simp)
  · rename_i hne
    rw [if_neg hne]

theorem scrubScene_zero {es : List PatElem} {s : Scene}
    (h : (scrubScene es s).2 = 0) : (scrubScene es s).1 = s := by
  unfold scrubScene at h ⊢
  simp only [List.map_map] at h ⊢
  have hall : ∀ e ∈ s.dialogue, (scrubEntry es e).2 = 0 := by
    intro e he
    exact List.sum_eq_zero_iff.mp h _ (List.mem_map_of_mem _ he)
  have hmap : s.dialogue.map (Prod.fst ∘ scrubEntry es) = s.dialogue := by
    have hcg : ∀ e ∈ s.dialogue, (Prod.fst ∘ scrubEntry es) e = id e :=
      fun e he => scrubEntry_zero (hall e he)
    rw [List.map_congr_left hcg, List.map_id]
  rw [hmap]

/-- C7 amended: the title-scrubber is not idempotent in general (removing an
occurrence can splice the surrounding characters into a new occurrence), but
a run whose removed-count is 0 returns its input scenes unchanged — in
particular a second application changes nothing precisely when it finds
nothing to remove. -/
theorem C7_scrub_zero_count_identity :
    ∀ (scenes : List Scene) (title : Option Line),
      (clean_episode_title_from_dialogue scenes title).2 = 0 →
      (clean_episode_title_from_dialogue scenes title).1 = scenes := by
  intro scenes title h
  match title with
  | none => rfl
  | some t =>
    simp only [clean_episode_title_from_dialogue] at h ⊢
    by_cases ht : t = []
    · rw [if_pos ht]
    · rw [if_neg ht] at h ⊢
      simp only [List.map_map] at h ⊢
      have hall : ∀ s ∈ scenes, (scrubScene (compileTitle t) s).2 = 0 := by
        intro s hs
        exact List.sum_eq_zero_iff.mp h _ (List.mem_map_of_mem _ hs)
      have hcg : ∀ s ∈ scenes, (Prod.fst ∘ scrubScene (compileTitle t)) s = id s :=
        fun s hs => scrubScene_zero (hall s hs)
      rw [List.map_congr_left hcg, List.map_id]

theorem C7_scrub_zero_count_identity_witness :
    (clean_episode_title_from_dialogue [c7Scene] (some "zz".toList)).1 = [c7Scene] :=
  C7_scrub_zero_count_identity [c7Scene] (some "zz".toList) (by decide)

/-! ## Lemmas about the parser's per-line branches -/

theorem startsWithL_cons {p : Char} {ps l : Line}
    (h : startsWithL (p :: ps) l = true) :
    ∃ c cs, l = c :: cs ∧ p = c ∧ startsWithL ps cs = true := by
  match l with
  | [] => exact absurd h (by simp [startsWithL])
  | c :: cs =>
    simp only [startsWithL, Bool.and_eq_true, decide_eq_true_eq] at h
    exact ⟨c, cs, rfl, h.1, h.2⟩

theorem startsWithL_cons_false {p c : Char} {ps cs : Line} (h : p ≠ c) :
    startsWithL (p :: ps) (c :: cs) = false := by
  simp [startsWithL, h]

theorem isUpperAZ_isDigitC_false {c : Char} (h : isUpperAZ c = true) :
    isDigitC c = false := by
  unfold isUpperAZ at h
  unfold isDigitC
  rw [Bool.and_eq_true, decide_eq_true_eq, decide_eq_true_eq] at h
  by_contra hd
  rw [Bool.not_eq_false, Bool.and_eq_true, decide_eq_true_eq, decide_eq_true_eq] at hd
  exact absurd (le_trans h.1 hd.2) (by decide)

theorem isDateLine_cons_false {c : Char} {rest : Line} (h : isDigitC c = false) :
    isDateLine (c :: rest) = false := by
  simp [isDateLine, dateCombo, digitsSeg, h]

theorem matchSpeaker_head {l : Line} {nm txt : Line}
    (h : matchSpeaker l = some (nm, txt)) :
    ∃ c cs, l = c :: cs ∧ isUpperAZ c = true := by
  match l with
  | [] => exact absurd h (by simp [matchSpeaker])
  | c :: cs =>
    refine ⟨c, cs, rfl, ?_⟩
    by_contra hu
    rw [Bool.not_eq_true] at hu
    simp [matchSpeaker, hu] at h

/-- On a (stripped) `[Scene:` line that is not a noise line, the loop body
takes the scene-boundary branch. -/
theorem processStripped_scene {title : Option Line} {st : ParserState}
    {lineNum : Nat} {line : Line}
    (hs : startsWithL "[Scene:".toList line = true)
    (hn : isNoiseLine line = false) :
    processStripped title st lineNum line =
      { script :=
          if st.current.dialogue ≠ [] ∨ st.current.stage_directions ≠ [] then
            st.script ++ [st.current]
          else st.script,
        current := { scene := sceneDescription line,
                     scene_number := st.counter + 1, characters := [],
                     dialogue := [], page_numbers := [], episode_title := title,
                     stage_directions := [],
                     line_number_start := some (lineNum + 1) },
        speaker := none, buffer := [], counter := st.counter + 1 } := by
  obtain ⟨c, cs, rfl, hc, -⟩ := startsWithL_cons hs
  unfold processStripped
  rw [if_neg (List.cons_ne_nil c cs), if_neg (by rw [hn]; exact Bool.false_ne_true),
    if_neg (by rw [isDateLine_cons_false (hc ▸ by decide)]; exact Bool.false_ne_true),
    if_pos hs]

/-- C6: a `[Scene:` line arriving while a speaker is active and a non-empty
buffer is pending flushes nothing — the total number of dialogue entries is
unchanged — and the new scene starts with no active speaker, an empty
buffer, and no dialogue. -/
theorem C6_scene_boundary_drops_buffer :
    ∀ (title : Option Line) (st : ParserState) (idx : Nat) (raw : Line)
      (sp : Line),
      st.speaker = some sp → st.buffer ≠ [] →
      startsWithL "[Scene:".toList (pyStrip raw) = true →
      isNoiseLine (pyStrip raw) = false →
      (processLine title st (idx, raw)).speaker = none ∧
      (processLine title st (idx, raw)).buffer = [] ∧
      (processLine title st (idx, raw)).current.dialogue = [] ∧
      entryCount (processLine title st (idx, raw)) = entryCount st := by
  intro title st idx raw sp _ _ hs hn
  simp only [processLine]
  rw [processStripped_scene hs hn]
  refine ⟨rfl, rfl, rfl, ?_⟩
  unfold entryCount
  by_cases hemit : st.current.dialogue ≠ [] ∨ st.current.stage_directions ≠ []
  · rw [if_pos hemit]
    simp
  · rw [if_neg hemit]
    push_neg at hemit
    simp [hemit.1]

theorem C6_scene_boundary_drops_buffer_witness :
    (processLine none
        { script := [], current := initScene none, speaker := some "Ross".toList,
          buffer := "Hi".toList, counter := 0 } (3, "[Scene: B]".toList)).speaker
        = none ∧
      (processLine none
        { script := [], current := initScene none, speaker := some "Ross".toList,
          buffer := "Hi".toList, counter := 0 } (3, "[Scene: B]".toList)).buffer = [] ∧
      (processLine none
        { script := [], current := initScene none, speaker := some "Ross".toList,
          buffer := "Hi".toList, counter := 0 } (3, "[Scene: B]".toList)).current.dialogue
        = [] ∧
      entryCount (processLine none
        { script := [], current := initScene none, speaker := some "Ross".toList,
          buffer := "Hi".toList, counter := 0 } (3, "[Scene: B]".toList)) =
        entryCount
          { script := [], current := initScene none, speaker := some "Ross".toList,
            buffer := "Hi".toList, counter := 0 } :=
  C6_scene_boundary_drops_buffer none
    { script := [], current := initScene none, speaker := some "Ross".toList,
      buffer := "Hi".toList, counter := 0 } 3 "[Scene: B]".toList "Ross".toList
    rfl (by decide) (by decide) (by decide)

/-! ## Claims C4 and C5 -/

theorem finalize_no_flush {title : Option Line} {L : Nat} {st : ParserState}
    (h : st.speaker = none ∨ st.buffer = []) :
    finalizeState title L st = st.script := by
  unfold finalizeState
  rcases h with h | h
  · rw [h]
  · cases hs : st.speaker with
    | none => rfl
    | some sp => rw [h]

theorem finalize_flush {title : Option Line} {L : Nat} {st : ParserState}
    {sp : Line} {b : Char} {bs : Line} (hs : st.speaker = some sp)
    (hb : st.buffer = b :: bs) :
    finalizeState title L st =
      st.script ++ [flushInto title st.current sp (b :: bs) L] := by
  unfold finalizeState
  rw [hs, hb]

/-- C4 amended: at end of input the current scene is closed and appended
only when a speaker is active and the buffer is non-empty (the final entry
is then flushed and the scene appended with it); otherwise — even when the
scene holds dialogue entries or stage directions — the final scene is
dropped, so the emptiness guard of the mid-stream boundary is effectively
replaced by an even stronger pending-flush guard. -/
theorem C4_end_of_input_guard :
    ∀ (raw : Line) (title : Option Line),
      ((runLines title (pySplitlines raw)).speaker = none ∨
          (runLines title (pySplitlines raw)).buffer = [] →
        parse_friends_script raw title = (runLines title (pySplitlines raw)).script) ∧
      (∀ (sp : Line) (b : Char) (bs : Line),
        (runLines title (pySplitlines raw)).speaker = some sp →
        (runLines title (pySplitlines raw)).buffer = b :: bs →
        parse_friends_script raw title =
          (runLines title (pySplitlines raw)).script ++
            [flushInto title (runLines title (pySplitlines raw)).current sp (b :: bs)
              (pySplitlines raw).length]) := by
  intro raw title
  constructor
  · intro h
    exact finalize_no_flush h
  · intro sp b bs hs hb
    exact finalize_flush hs hb

theorem C4_end_of_input_guard_witness :
    parse_friends_script c4Text none = (runLines none (pySplitlines c4Text)).script :=
  (C4_end_of_input_guard c4Text none).1 (Or.inr (by decide))

theorem addPage_dialogue (cur : Scene) (o : Option Line) :
    (addPage cur o).dialogue = cur.dialogue := by
  cases o <;> rfl

theorem flushInto_dialogue (title : Option Line) (cur : Scene) (sp buf : Line)
    (L : Nat) :
    (flushInto title cur sp buf L).dialogue =
      cur.dialogue ++ [flushEntry title sp buf L] := by
  unfold flushInto
  rw [addPage_dialogue]

/-- On a (stripped) speaker line that is not a noise line, with a speaker
active and a non-empty buffer, the loop body flushes exactly one entry. -/
theorem processStripped_speaker_flush {title : Option Line} {st : ParserState}
    {lineNum : Nat} {line nm txt sp : Line} {b : Char} {bs : Line}
    (hm : matchSpeaker line = some (nm, txt))
    (hn : isNoiseLine line = false)
    (hsp : st.speaker = some sp) (hbuf : st.buffer = b :: bs) :
    processStripped title st lineNum line =
      { st with
        current :=
          { flushInto title st.current sp (b :: bs) (lineNum + 1) with
            characters :=
              addSet nm
                (flushInto title st.current sp (b :: bs) (lineNum + 1)).characters },
        speaker := some nm, buffer := txt } := by
  obtain ⟨c, cs, rfl, hup⟩ := matchSpeaker_head hm
  have hlb : ('[' : Char) ≠ c := by
    intro hq; rw [← hq] at hup; exact absurd hup (by decide)
  have hpa : ('(' : Char) ≠ c := by
    intro hq; rw [← hq] at hup; exact absurd hup (by decide)
  unfold processStripped
  rw [if_neg (List.cons_ne_nil c cs), if_neg (by rw [hn]; exact Bool.false_ne_true),
    if_neg (by rw [isDateLine_cons_false (isUpperAZ_isDigitC_false hup)]
               exact Bool.false_ne_true),
    if_neg (by rw [show ("[Scene:".toList : Line) = '[' :: "Scene:".toList from rfl,
                 startsWithL_cons_false hlb]
               exact Bool.false_ne_true),
    if_neg (by rw [show ("[".toList : Line) = ['['] from rfl,
                 show ("(".toList : Line) = ['('] from rfl,
                 startsWithL_cons_false hlb, startsWithL_cons_false hpa]
               exact Bool.false_ne_true),
    hm, hsp, hbuf]

/-- C5 amended: the `line_number` recorded on a dialogue entry is the
1-based number of the line that *triggered the flush*: the next speaker's
line for a mid-stream flush (index `lineNum` gives `lineNum + 1`), and the
total line count for the end-of-input flush — not the line of the speaker
line that started the entry.  Continuation lines still never produce their
own entries. -/
theorem C5_line_number_flush_point :
    (∀ (title : Option Line) (st : ParserState) (lineNum : Nat)
       (line nm txt sp : Line) (b : Char) (bs : Line),
      matchSpeaker line = some (nm, txt) →
      isNoiseLine line = false →
      st.speaker = some sp → st.buffer = b :: bs →
      (processStripped title st lineNum line).current.dialogue.map
          (fun e => (e.speaker, e.line_number)) =
        st.current.dialogue.map (fun e => (e.speaker, e.line_number))
          ++ [(sp, lineNum + 1)]) ∧
    (∀ (title : Option Line) (cur : Scene) (sp buf : Line) (L : Nat),
      (flushInto title cur sp buf L).dialogue.map
          (fun e => (e.speaker, e.line_number)) =
        cur.dialogue.map (fun e => (e.speaker, e.line_number)) ++ [(sp, L)]) ∧
    (∀ (raw : Line) (title : Option Line) (sp : Line) (b : Char) (bs : Line),
      (runLines title (pySplitlines raw)).speaker = some sp →
      (runLines title (pySplitlines raw)).buffer = b :: bs →
      parse_friends_script raw title =
        (runLines title (pySplitlines raw)).script ++
          [flushInto title (runLines title (pySplitlines raw)).current sp (b :: bs)
            (pySplitlines raw).length]) := by
  refine ⟨?_, ?_, ?_⟩
  · intro title st lineNum line nm txt sp b bs hm hn hsp hbuf
    rw [processStripped_speaker_flush hm hn hsp hbuf]
    show (flushInto title st.current sp (b :: bs) (lineNum + 1)).dialogue.map _ = _
    rw [flushInto_dialogue]
    simp [flushEntry]
  · intro title cur sp buf L
    rw [flushInto_dialogue]
    simp [flushEntry]
  · intro raw title sp b bs hs hb
    exact finalize_flush hs hb

theorem C5_line_number_flush_point_witness :
    (processStripped none
        { script := [], current := initScene none, speaker := some "Ross".toList,
          buffer := "Hi".toList, counter := 0 } 1
        "Chandler: Yo".toList).current.dialogue.map
        (fun e => (e.speaker, e.line_number)) =
      (initScene none).dialogue.map (fun e => (e.speaker, e.line_number))
        ++ [("Ross".toList, 1 + 1)] :=
  C5_line_number_flush_point.1 none
    { script := [], current := initScene none, speaker := some "Ross".toList,
      buffer := "Hi".toList, counter := 0 } 1
    "Chandler: Yo".toList "Chandler".toList "Yo".toList "Ross".toList
    'H' "i".toList (by decide) (by decide) rfl rfl

/-! ## Claim C2, amended: scene numbers are strictly increasing -/

theorem addPage_scene_number (cur : Scene) (o : Option Line) :
    (addPage cur o).scene_number = cur.scene_number := by
  cases o <;> rfl

theorem addPage_characters (cur : Scene) (o : Option Line) :
    (addPage cur o).characters = cur.characters := by
  cases o <;> rfl

theorem flushInto_scene_number (title : Option Line) (cur : Scene)
    (sp buf : Line) (L : Nat) :
    (flushInto title cur sp buf L).scene_number = cur.scene_number := by
  unfold flushInto
  exact addPage_scene_number ..

theorem flushInto_characters (title : Option Line) (cur : Scene)
    (sp buf : Line) (L : Nat) :
    (flushInto title cur sp buf L).characters = cur.characters := by
  unfold flushInto
  exact addPage_characters ..

theorem chain_lt_append_last {l : List Nat} {a b : Nat}
    (h : List.Chain' (· < ·) (l ++ [a])) (hab : a < b) :
    List.Chain' (· < ·) ((l ++ [a]) ++ [b]) := by
  rw [List.chain'_append]
  refine ⟨h, List.chain'_singleton b, ?_⟩
  intro x hx y hy
  simp only [List.getLast?_concat, Option.mem_def, Option.some.injEq] at hx
  simp only [List.head?_cons, Option.mem_def, Option.some.injEq] at hy
  omega

theorem chain_lt_bump_last {l : List Nat} {a b : Nat}
    (h : List.Chain' (· < ·) (l ++ [a])) (hab : a ≤ b) :
    List.Chain' (· < ·) (l ++ [b]) := by
  rw [List.chain'_append] at h ⊢
  obtain ⟨h1, -, h3⟩ := h
  refine ⟨h1, List.chain'_singleton b, ?_⟩
  intro x hx y hy
  simp only [List.head?_cons, Option.mem_def, Option.some.injEq] at hy
  have := h3 x hx a (by simp)
  omega

set_option maxHeartbeats 1000000 in
theorem processStripped_numInv (title : Option Line) (st : ParserState)
    (lineNum : Nat) (line : Line) (h : NumInv st) :
    NumInv (processStripped title st lineNum line) := by
  obtain ⟨h1, h2⟩ := h
  unfold processStripped
  by_cases hblank : line = []
  · rw [if_pos hblank]; exact ⟨h1, h2⟩
  rw [if_neg hblank]
  by_cases hnoise : isNoiseLine line = true
  · rw [if_pos hnoise]; exact ⟨h1, h2⟩
  rw [if_neg hnoise]
  by_cases hdate : isDateLine line = true
  · rw [if_pos hdate]; exact ⟨h1, h2⟩
  rw [if_neg hdate]
  by_cases hscene : startsWithL "[Scene:".toList line = true
  · rw [if_pos hscene]
    refine ⟨?_, rfl⟩
    unfold numsOf at h1 ⊢
    by_cases hemit : st.current.dialogue ≠ [] ∨ st.current.stage_directions ≠ []
    · rw [if_pos hemit]
      simp only [List.map_append, List.map_cons, List.map_nil]
      exact chain_lt_append_last h1
        (show st.current.scene_number < st.counter + 1 by omega)
    · rw [if_neg hemit]
      exact chain_lt_bump_last h1
        (show st.current.scene_number ≤ st.counter + 1 by omega)
  rw [if_neg hscene]
  by_cases hsd : (startsWithL "[".toList line || startsWithL "(".toList line) = true
  · rw [if_pos hsd]; exact ⟨h1, h2⟩
  rw [if_neg hsd]
  cases hm : matchSpeaker line with
  | none =>
    cases hsp : st.speaker with
    | none => exact ⟨h1, h2⟩
    | some sp => exact ⟨h1, h2⟩
  | some pr =>
    obtain ⟨nm, txt⟩ := pr
    cases hsp : st.speaker with
    | none => exact ⟨h1, h2⟩
    | some sp =>
      cases hbuf : st.buffer with
      | nil => exact ⟨h1, h2⟩
      | cons b bs =>
        constructor
        · show List.Chain' (· < ·)
            (st.script.map (fun s => s.scene_number) ++
              [(flushInto title st.current sp (b :: bs) (lineNum + 1)).scene_number])
          rw [flushInto_scene_number]
          exact h1
        · show (flushInto title st.current sp (b :: bs) (lineNum + 1)).scene_number
            = st.counter
          rw [flushInto_scene_number]
          exact h2

theorem foldl_processLine_inv (title : Option Line)
    (Inv : ParserState → Prop)
    (hstep : ∀ st p, Inv st → Inv (processLine title st p)) :
    ∀ (ps : List (Nat × Line)) (st : ParserState),
      Inv st → Inv (ps.foldl (processLine title) st) := by
  intro ps
  induction ps with
  | nil => intro st h; exact h
  | cons p ps ih =>
    intro st h
    rw [List.foldl_cons]
    exact ih _ (hstep st p h)

theorem runLines_numInv (title : Option Line) (lines : List Line) :
    NumInv (runLines title lines) := by
  unfold runLines
  refine foldl_processLine_inv title NumInv ?_ _ _ ?_
  · intro st p h
    exact processStripped_numInv title st p.1 (pyStrip p.2) h
  · exact ⟨List.chain'_singleton 0, rfl⟩

/-- C2 amended: the emitted scenes' `scene_number` values are strictly
increasing, but they need not start at 1 and may skip values: every
`[Scene:` heading increments the counter even when the previous scene is
discarded as empty, and the implicit leading scene — emitted like any other
scene, mid-stream at the next heading or at the end-of-input flush,
whenever it holds dialogue or stage directions — carries number 0 (the
second conjunct shows a mid-stream emission of it with the numbers
`[0, 1]`). -/
theorem C2_scene_numbers_strictly_increasing :
    (∀ (raw : Line) (title : Option Line),
      List.Chain' (· < ·)
        ((parse_friends_script raw title).map (fun s => s.scene_number))) ∧
    (parse_friends_script c2bText none).map (fun s => s.scene_number) = [0, 1] ∧
    ((parse_friends_script c2bText none).headD (initScene none)).stage_directions.map
      (fun d => d.direction) = ["(They enter)".toList] := by
  refine ⟨?_, by decide, by decide⟩
  intro raw title
  obtain ⟨h1, -⟩ := runLines_numInv title (pySplitlines raw)
  unfold numsOf at h1
  unfold parse_friends_script
  cases hs : (runLines title (pySplitlines raw)).speaker with
  | none =>
    rw [finalize_no_flush (Or.inl hs)]
    exact (List.chain'_append.mp h1).1
  | some sp =>
    cases hb : (runLines title (pySplitlines raw)).buffer with
    | nil =>
      rw [finalize_no_flush (Or.inr hb)]
      exact (List.chain'_append.mp h1).1
    | cons b bs =>
      rw [finalize_flush hs hb]
      rw [List.map_append, List.map_singleton, flushInto_scene_number]
      exact h1

/-! ## Claim C3, amended: speaking characters are unique characters -/

theorem mem_addSet_self (x : Line) (s : List Line) : x ∈ addSet x s := by
  unfold addSet
  split
  · assumption
  · exact List.mem_append_right _ (List.mem_singleton.mpr rfl)

theorem mem_addSet_of_mem {x : Line} {s : List Line} (y : Line) (h : x ∈ s) :
    x ∈ addSet y s := by
  unfold addSet
  split
  · exact h
  · exact List.mem_append_left _ h

theorem mem_addSet_cases {x y : Line} {s : List Line} (h : x ∈ addSet y s) :
    x = y ∨ x ∈ s := by
  unfold addSet at h
  split at h
  · exact Or.inr h
  · rcases List.mem_append.mp h with h | h
    · exact Or.inr h
    · exact Or.inl (List.mem_singleton.mp h)

set_option maxHeartbeats 1000000 in
theorem processStripped_speakerInv (title : Option Line) (st : ParserState)
    (lineNum : Nat) (line : Line) (h : SpeakerInv st) :
    SpeakerInv (processStripped title st lineNum line) := by
  obtain ⟨h1, h2, h3⟩ := h
  unfold processStripped
  by_cases hblank : line = []
  · rw [if_pos hblank]; exact ⟨h1, h2, h3⟩
  rw [if_neg hblank]
  by_cases hnoise : isNoiseLine line = true
  · rw [if_pos hnoise]; exact ⟨h1, h2, h3⟩
  rw [if_neg hnoise]
  by_cases hdate : isDateLine line = true
  · rw [if_pos hdate]; exact ⟨h1, h2, h3⟩
  rw [if_neg hdate]
  by_cases hscene : startsWithL "[Scene:".toList line = true
  · rw [if_pos hscene]
    refine ⟨?_, ?_, ?_⟩
    · by_cases hemit : st.current.dialogue ≠ [] ∨ st.current.stage_directions ≠ []
      · rw [if_pos hemit]
        intro s hs
        rcases List.mem_append.mp hs with hs | hs
        · exact h1 s hs
        · rw [List.mem_singleton.mp hs]; exact h2
      · rw [if_neg hemit]; exact h1
    · intro e he; exact absurd he (List.not_mem_nil e)
    · intro sp hsp; exact absurd hsp (by simp)
  rw [if_neg hscene]
  by_cases hsd : (startsWithL "[".toList line || startsWithL "(".toList line) = true
  · rw [if_pos hsd]
    exact ⟨h1, h2, h3⟩
  rw [if_neg hsd]
  cases hm : matchSpeaker line with
  | none =>
    cases hsp : st.speaker with
    | none => exact ⟨h1, h2, h3⟩
    | some sp =>
      refine ⟨h1, h2, ?_⟩
      intro sp' hsp'
      cases hsp'
      exact h3 sp hsp
  | some pr =>
    obtain ⟨nm, txt⟩ := pr
    cases hsps : st.speaker with
    | none =>
      refine ⟨h1, ?_, ?_⟩
      · intro e he
        exact mem_addSet_of_mem nm (h2 e he)
      · intro sp hsp
        cases hsp
        exact mem_addSet_self nm _
    | some sp =>
      cases hbuf : st.buffer with
      | nil =>
        refine ⟨h1, ?_, ?_⟩
        · intro e he
          exact mem_addSet_of_mem nm (h2 e he)
        · intro sp' hsp'
          cases hsp'
          exact mem_addSet_self nm _
      | cons b bs =>
        refine ⟨h1, ?_, ?_⟩
        · intro e he
          have he' : e ∈ (flushInto title st.current sp (b :: bs) (lineNum + 1)).dialogue := he
          rw [flushInto_dialogue] at he'
          show e.speaker ∈
            addSet nm (flushInto title st.current sp (b :: bs) (lineNum + 1)).characters
          rw [flushInto_characters]
          rcases List.mem_append.mp he' with he' | he'
          · exact mem_addSet_of_mem nm (h2 e he')
          · rw [List.mem_singleton.mp he']
            exact mem_addSet_of_mem nm (h3 sp hsps)
        · intro sp' hsp'
          cases hsp'
          exact mem_addSet_self nm _

theorem runLines_speakerInv (title : Option Line) (lines : List Line) :
    SpeakerInv (runLines title lines) := by
  unfold runLines
  refine foldl_processLine_inv title SpeakerInv ?_ _ _ ?_
  · intro st p h
    exact processStripped_speakerInv title st p.1 (pyStrip p.2) h
  · refine ⟨?_, ?_, ?_⟩
    · intro s hs; exact absurd hs (List.not_mem_nil s)
    · intro e he; exact absurd he (List.not_mem_nil e)
    · intro sp hsp; exact absurd hsp (by simp [initState])

theorem parse_scenes_OK (raw : Line) (title : Option Line) :
    ∀ s ∈ parse_friends_script raw title, sceneOK s := by
  obtain ⟨h1, h2, h3⟩ := runLines_speakerInv title (pySplitlines raw)
  unfold parse_friends_script
  cases hs : (runLines title (pySplitlines raw)).speaker with
  | none => rw [finalize_no_flush (Or.inl hs)]; exact h1
  | some sp =>
    cases hb : (runLines title (pySplitlines raw)).buffer with
    | nil => rw [finalize_no_flush (Or.inr hb)]; exact h1
    | cons b bs =>
      rw [finalize_flush hs hb]
      intro s hmem
      rcases List.mem_append.mp hmem with hmem | hmem
      · exact h1 s hmem
      · rw [List.mem_singleton.mp hmem]
        intro e he
        rw [flushInto_dialogue] at he
        rw [flushInto_characters]
        rcases List.mem_append.mp he with he | he
        · exact h2 e he
        · rw [List.mem_singleton.mp he]
          exact h3 sp hs

theorem scrubEntry_speaker (es : List PatElem) (e : DialogueEntry) :
    (scrubEntry es e).1.speaker = e.speaker := by
  unfold scrubEntry
  split <;> rfl

theorem sceneOK_scrubScene {es : List PatElem} {s : Scene} (h : sceneOK s) :
    sceneOK (scrubScene es s).1 := by
  intro e he
  have he' : e ∈ (s.dialogue.map (scrubEntry es)).map Prod.fst := he
  rw [List.map_map] at he'
  obtain ⟨e0, he0, rfl⟩ := List.mem_map.mp he'
  show (scrubEntry es e0).1.speaker ∈ s.characters
  rw [scrubEntry_speaker]
  exact h e0 he0

theorem scrub_scenes_OK {scenes : List Scene} {title : Option Line}
    (h : ∀ s ∈ scenes, sceneOK s) :
    ∀ s ∈ (clean_episode_title_from_dialogue scenes title).1, sceneOK s := by
  cases title with
  | none => exact h
  | some t =>
    by_cases ht : t = []
    · simp only [clean_episode_title_from_dialogue, if_pos ht]
      exact h
    · simp only [clean_episode_title_from_dialogue, if_neg ht]
      intro s hs
      rw [List.map_map] at hs
      obtain ⟨s0, hs0, rfl⟩ := List.mem_map.mp hs
      exact sceneOK_scrubScene (h s0 hs0)

theorem statsLengths_unique (a : StatsAcc) (s : Scene) :
    (statsLengths a s).unique_characters = a.unique_characters := rfl

theorem statsLengths_speaking (a : StatsAcc) (s : Scene) :
    (statsLengths a s).speaking_characters = a.speaking_characters := rfl

theorem statsPages_unique (a : StatsAcc) (s : Scene) :
    (statsPages a s).unique_characters = a.unique_characters := by
  unfold statsPages
  split <;> rfl

theorem statsPages_speaking (a : StatsAcc) (s : Scene) :
    (statsPages a s).speaking_characters = a.speaking_characters := by
  unfold statsPages
  split <;> rfl

theorem statsChars_unique (a : StatsAcc) (s : Scene) :
    (statsChars a s).unique_characters =
      s.characters.foldl (fun u c => addSet c u) a.unique_characters := by
  unfold statsChars
  generalize s.characters = l
  induction l generalizing a with
  | nil => rfl
  | cons c l ih => exact ih _

theorem statsChars_speaking (a : StatsAcc) (s : Scene) :
    (statsChars a s).speaking_characters = a.speaking_characters := by
  unfold statsChars
  generalize s.characters = l
  induction l generalizing a with
  | nil => rfl
  | cons c l ih => exact ih _

theorem statsDialogue_speaking (a : StatsAcc) (s : Scene) :
    (statsDialogue a s).speaking_characters =
      s.dialogue.foldl
        (fun (u : List Line) (d : DialogueEntry) => addSet d.speaker u)
        a.speaking_characters := by
  unfold statsDialogue
  generalize s.dialogue = l
  induction l generalizing a with
  | nil => rfl
  | cons d l ih => exact ih _

theorem statsDialogue_unique (a : StatsAcc) (s : Scene) :
    (statsDialogue a s).unique_characters = a.unique_characters := by
  unfold statsDialogue
  generalize s.dialogue = l
  induction l generalizing a with
  | nil => rfl
  | cons d l ih => exact ih _

theorem foldl_addSet_mono {α : Type} (f : α → Line) {x : Line}
    (l : List α) {u : List Line} (hx : x ∈ u) :
    x ∈ l.foldl (fun u d => addSet (f d) u) u := by
  induction l generalizing u with
  | nil => exact hx
  | cons d l ih => exact ih (mem_addSet_of_mem (f d) hx)

theorem foldl_addSet_of_mem {α : Type} (f : α → Line) {d0 : α} {l : List α}
    (u : List Line) (hd : d0 ∈ l) :
    f d0 ∈ l.foldl (fun u d => addSet (f d) u) u := by
  induction l generalizing u with
  | nil => exact absurd hd (List.not_mem_nil d0)
  | cons d l ih =>
    rcases List.mem_cons.mp hd with rfl | hd
    · exact foldl_addSet_mono f l (mem_addSet_self (f d0) u)
    · exact ih _ hd

theorem foldl_addSet_cases {α : Type} (f : α → Line) {x : Line} {l : List α}
    {u : List Line} (h : x ∈ l.foldl (fun u d => addSet (f d) u) u) :
    x ∈ u ∨ ∃ d ∈ l, x = f d := by
  induction l generalizing u with
  | nil => exact Or.inl h
  | cons d l ih =>
    rcases ih h with h' | ⟨d', hd', rfl⟩
    · rcases mem_addSet_cases h' with rfl | h''
      · exact Or.inr ⟨d, List.mem_cons_self d l, rfl⟩
      · exact Or.inl h''
    · exact Or.inr ⟨d', List.mem_cons_of_mem d hd', rfl⟩

theorem accOK_statsScene {a : StatsAcc} {s : Scene} (ha : accOK a)
    (hs : sceneOK s) : accOK (statsScene a s) := by
  intro c hc
  unfold statsScene at hc ⊢
  rw [statsDialogue_speaking] at hc
  rw [statsDialogue_unique]
  rcases foldl_addSet_cases (fun (d : DialogueEntry) => d.speaker) hc with hc | ⟨d, hd, rfl⟩
  · rw [statsChars_speaking, statsPages_speaking, statsLengths_speaking] at hc
    rw [statsChars_unique]
    refine foldl_addSet_mono (fun (c : Line) => c) _ ?_
    rw [statsPages_unique, statsLengths_unique]
    exact ha c hc
  · rw [statsChars_unique]
    exact foldl_addSet_of_mem (fun (c : Line) => c) _ (hs d hd)

theorem accOK_foldl (scenes : List Scene) :
    ∀ (a : StatsAcc), accOK a → (∀ s ∈ scenes, sceneOK s) →
      accOK (scenes.foldl statsScene a) := by
  induction scenes with
  | nil => intro a ha _; exact ha
  | cons s scenes ih =>
    intro a ha hall
    rw [List.foldl_cons]
    exact ih _ (accOK_statsScene ha (hall s (List.mem_cons_self s scenes)))
      (fun s' hs' => hall s' (List.mem_cons_of_mem s hs'))

theorem accOK_statsFold {scenes : List Scene}
    (h : ∀ s ∈ scenes, sceneOK s) : accOK (statsFold scenes) := by
  unfold statsFold
  refine accOK_foldl scenes initStatsAcc ?_ h
  intro c hc
  exact absurd hc (List.not_mem_nil c)

/-- C3 amended: the two statistics fields are not equal in general (a
speaker line with empty text puts a name in the scene's characters but
yields no dialogue entry), but the inclusion one way round always holds:
every speaking character is a unique character, because the parser adds a
speaker to the scene's character set when it becomes active and every
flushed entry's speaker was active in that very scene. -/
theorem C3_speaking_subset_unique :
    ∀ (raw pdf_path c : Line),
      c ∈ (parse_pipeline raw pdf_path).2.2.2.speaking_characters →
      c ∈ (parse_pipeline raw pdf_path).2.2.2.unique_characters := by
  intro raw pdf_path c hc
  have hOK : ∀ s ∈ pipeline_scenes raw pdf_path, sceneOK s :=
    scrub_scenes_OK (parse_scenes_OK raw
      (extract_episode_metadata raw pdf_path).episode_title)
  exact accOK_statsFold hOK c hc

theorem C3_speaking_subset_unique_witness :
    "Joey".toList ∈ (parse_pipeline scenarioText scenarioPath).2.2.2.unique_characters :=
  C3_speaking_subset_unique scenarioText scenarioPath "Joey".toList (by decide)

end ScriptParser





